import Mathlib

/-!
Verification of the GeoSafe alert-lifecycle and risk-classification core.

The definitions below are a shallow embedding of the JavaScript source:
  * `generateFallbackPrediction`  — server/routes/sensorReadings.js
  * `Alert.acknowledge` / `Alert.resolve` / `Alert.escalate`
                                  — server/models/Alert.js (instance methods)
  * the route guards              — server/routes/alerts.js
  * `getAlertsNeedingEscalation`  — server/models/Alert.js (static method)
    and the periodic sweep        — websocket handler module
  * `retryRequest`, `validatePredictionResponse`, `getPrediction`
                                  — server/services/aiService.js
  * `postReading`                 — POST /api/readings route
  * `generateSensorReading`       — services/backendSensorSimulator.js

Numbers: feature values and confidences are rationals, timestamps are
integers (milliseconds, as `Date.now()`), scores are naturals.
-/

namespace GeoSafe

/-- Risk level of a classification (`riskPrediction.level`). -/
inductive RiskLevel where
  | LOW
  | MEDIUM
  | HIGH
deriving DecidableEq, Repr

/-- Alert priority (`alert.priority`). -/
inductive Priority where
  | LOW
  | MEDIUM
  | HIGH
  | CRITICAL
deriving DecidableEq, Repr

/-- Alert lifecycle status (`alert.status`). -/
inductive AlertStatus where
  | ACTIVE
  | ACKNOWLEDGED
  | RESOLVED
  | FALSE_POSITIVE
deriving DecidableEq, Repr

/-- The ten feature values of one sensor reading (`value.readings` after
Joi validation in server/routes/sensorReadings.js). -/
structure Readings where
  Rainfall_mm : ℚ
  Slope_Angle : ℚ
  Soil_Saturation : ℚ
  Vegetation_Cover : ℚ
  Earthquake_Activity : ℚ
  Proximity_to_Water : ℚ
  Landslide : ℚ
  Soil_Type_Gravel : Bool
  Soil_Type_Sand : Bool
  Soil_Type_Silt : Bool
deriving DecidableEq, Repr

/-- The Joi range validation of the reading schema
(Rainfall 0..1000, Slope 0..90, Saturation 0..1, Vegetation 0..1,
Earthquake 0..10, Proximity ≥ 0, Landslide 0..1; soil types are booleans). -/
def validReadings (r : Readings) : Prop :=
  0 ≤ r.Rainfall_mm ∧ r.Rainfall_mm ≤ 1000 ∧
  0 ≤ r.Slope_Angle ∧ r.Slope_Angle ≤ 90 ∧
  0 ≤ r.Soil_Saturation ∧ r.Soil_Saturation ≤ 1 ∧
  0 ≤ r.Vegetation_Cover ∧ r.Vegetation_Cover ≤ 1 ∧
  0 ≤ r.Earthquake_Activity ∧ r.Earthquake_Activity ≤ 10 ∧
  0 ≤ r.Proximity_to_Water ∧
  0 ≤ r.Landslide ∧ r.Landslide ≤ 1

instance (r : Readings) : Decidable (validReadings r) := by
  unfold validReadings; infer_instance

/-- A risk classification as produced by the AI service wrapper or the
fallback (`{level, confidence, factors, aiModelVersion, processingTime}`). -/
structure Prediction where
  level : RiskLevel
  confidence : ℚ
  factors : List String
  aiModelVersion : String
  processingTime : ℚ
deriving DecidableEq, Repr

/-- The risk score accumulated by `generateFallbackPrediction`
(sensorReadings.js): the sequence of `riskScore += points` statements,
one `if` per rule, in source order. -/
def fallbackScore (r : Readings) : ℕ :=
  (if r.Slope_Angle > 50 then 30 else 0) +
  (if r.Rainfall_mm > 50 then 25 else 0) +
  (if r.Earthquake_Activity > 2 then 20 else 0) +
  (if r.Soil_Saturation > 7/10 then 15 else 0) +
  (if r.Vegetation_Cover < 3/10 then 10 else 0) +
  (if r.Proximity_to_Water < 50 then 10 else 0) +
  (if r.Landslide > 1/2 then 25 else 0) +
  (if r.Soil_Type_Sand = true ∧ r.Soil_Saturation > 1/2 then 5 else 0) +
  (if r.Soil_Type_Silt = true ∧ r.Rainfall_mm > 30 then 8 else 0)

/-- The factor list accumulated by `generateFallbackPrediction`: the
sequence of `factors.push(...)` statements, same guards, source order. -/
def fallbackFactors (r : Readings) : List String :=
  (if r.Slope_Angle > 50 then ["Slope_Angle"] else []) ++
  (if r.Rainfall_mm > 50 then ["Rainfall_mm"] else []) ++
  (if r.Earthquake_Activity > 2 then ["Earthquake_Activity"] else []) ++
  (if r.Soil_Saturation > 7/10 then ["Soil_Saturation"] else []) ++
  (if r.Vegetation_Cover < 3/10 then ["Vegetation_Cover"] else []) ++
  (if r.Proximity_to_Water < 50 then ["Proximity_to_Water"] else []) ++
  (if r.Landslide > 1/2 then ["Landslide"] else []) ++
  (if r.Soil_Type_Sand = true ∧ r.Soil_Saturation > 1/2 then ["Soil_Type_Sand"] else []) ++
  (if r.Soil_Type_Silt = true ∧ r.Rainfall_mm > 30 then ["Soil_Type_Silt"] else [])

/-- `generateFallbackPrediction(readings)` from sensorReadings.js: the
deterministic rule-based fallback classifier. -/
def generateFallbackPrediction (r : Readings) : Prediction :=
  let riskScore := fallbackScore r
  let factors := fallbackFactors r
  if riskScore ≥ 60 then
    { level := .HIGH, confidence := 7/10, factors := factors,
      aiModelVersion := "fallback-2.0", processingTime := 10 }
  else if riskScore ≥ 30 then
    { level := .MEDIUM, confidence := 6/10, factors := factors,
      aiModelVersion := "fallback-2.0", processingTime := 10 }
  else
    { level := .LOW, confidence := 8/10, factors := factors,
      aiModelVersion := "fallback-2.0", processingTime := 10 }

/-- A reading with only the slope rule triggered: slope 60°, everything
else below (or outside) its rule threshold. -/
def slopeOnlyReading : Readings :=
  { Rainfall_mm := 10, Slope_Angle := 60, Soil_Saturation := 1/10,
    Vegetation_Cover := 1/2, Earthquake_Activity := 1,
    Proximity_to_Water := 100, Landslide := 1/10,
    Soil_Type_Gravel := false, Soil_Type_Sand := false, Soil_Type_Silt := false }

/-- One entry of `alert.triggerFactors`. -/
structure TriggerFactor where
  factor : String
  value : ℚ
  threshold : ℚ
  severity : RiskLevel
deriving DecidableEq, Repr

/-- One entry of `alert.actionsTaken`. -/
structure ActionTaken where
  action : String
  takenBy : String
  takenAt : ℤ
  notes : String
deriving DecidableEq, Repr

/-- The mutable Alert document (server/models/Alert.js).  Timestamps are
integer milliseconds; `none` models the schema defaults `null`. -/
structure Alert where
  alertId : String
  sensorId : String
  riskLevel : RiskLevel
  confidence : ℚ
  triggeredAt : ℤ
  acknowledgedAt : Option ℤ
  acknowledgedBy : Option String
  resolvedAt : Option ℤ
  resolvedBy : Option String
  status : AlertStatus
  priority : Priority
  escalationLevel : ℕ
  escalatedAt : Option ℤ
  escalatedTo : Option String
  triggerFactors : List TriggerFactor
  actionsTaken : List ActionTaken
  affectedAreaRadius : ℚ
  aiModelVersion : String
deriving DecidableEq, Repr

/-- `priorities.indexOf(this.priority)` against
`['LOW', 'MEDIUM', 'HIGH', 'CRITICAL']`. -/
def priorityIndex : Priority → ℕ
  | .LOW => 0
  | .MEDIUM => 1
  | .HIGH => 2
  | .CRITICAL => 3

/-- `priorities[i]` for `i ≤ 3` over the same array. -/
def priorityOfIndex : ℕ → Priority
  | 0 => .LOW
  | 1 => .MEDIUM
  | 2 => .HIGH
  | _ => .CRITICAL

/-- `alertSchema.methods.acknowledge(acknowledgedBy)`: set status to
ACKNOWLEDGED and record actor and time. -/
def Alert.acknowledge (a : Alert) (acknowledgedBy : String) (now : ℤ) : Alert :=
  { a with status := .ACKNOWLEDGED,
           acknowledgedAt := some now,
           acknowledgedBy := some acknowledgedBy }

/-- `alertSchema.methods.resolve(resolvedBy, resolution)`: set status to
the given resolution and record actor and time. -/
def Alert.resolve (a : Alert) (resolvedBy : String) (resolution : AlertStatus)
    (now : ℤ) : Alert :=
  { a with status := resolution,
           resolvedAt := some now,
           resolvedBy := some resolvedBy }

/-- `alertSchema.methods.escalate(escalatedTo)`: increment the escalation
level, record time/target; if the new level is ≥ 3 and the priority is not
already CRITICAL, move the priority one slot up the priorities array
(`priorities[Math.min(currentIndex + 1, 3)]`). -/
def Alert.escalate (a : Alert) (escalatedTo : String) (now : ℤ) : Alert :=
  let stepped := { a with escalationLevel := a.escalationLevel + 1,
                          escalatedAt := some now,
                          escalatedTo := some escalatedTo }
  if stepped.escalationLevel ≥ 3 ∧ a.priority ≠ .CRITICAL then
    { stepped with priority := priorityOfIndex (min (priorityIndex a.priority + 1) 3) }
  else
    stepped

/-- PATCH /api/alerts/:alertId/acknowledge (server/routes/alerts.js):
reject unless status is ACTIVE, otherwise apply the instance method.
An error response leaves the stored alert untouched. -/
def acknowledgeRoute (a : Alert) (acknowledgedBy : String) (now : ℤ) :
    Except String Alert :=
  if a.status ≠ .ACTIVE then
    .error "Only active alerts can be acknowledged"
  else
    .ok (a.acknowledge acknowledgedBy now)

/-- PATCH /api/alerts/:alertId/resolve: reject an invalid resolution kind,
reject an already RESOLVED / FALSE_POSITIVE alert, otherwise apply the
instance method.  An error response leaves the stored alert untouched. -/
def resolveRoute (a : Alert) (resolvedBy : String) (resolution : AlertStatus)
    (now : ℤ) : Except String Alert :=
  if resolution ≠ .RESOLVED ∧ resolution ≠ .FALSE_POSITIVE then
    .error "Invalid resolution type"
  else if a.status = .RESOLVED ∨ a.status = .FALSE_POSITIVE then
    .error "Alert is already resolved"
  else
    .ok (a.resolve resolvedBy resolution now)

/-- PATCH /api/alerts/:alertId/escalate: reject unless status is ACTIVE,
reject at escalation level ≥ 3, otherwise apply the instance method.
An error response leaves the stored alert untouched. -/
def escalateRoute (a : Alert) (escalatedTo : String) (now : ℤ) :
    Except String Alert :=
  if a.status ≠ .ACTIVE then
    .error "Only active alerts can be escalated"
  else if a.escalationLevel ≥ 3 then
    .error "Alert is already at maximum escalation level"
  else
    .ok (a.escalate escalatedTo now)

/-- The per-priority age thresholds of
`alertSchema.statics.getAlertsNeedingEscalation`, in milliseconds
(CRITICAL 2 min, HIGH 5 min, MEDIUM 15 min, LOW 30 min). -/
def escalationThresholdMs : Priority → ℤ
  | .CRITICAL => 2 * 60000
  | .HIGH => 5 * 60000
  | .MEDIUM => 15 * 60000
  | .LOW => 30 * 60000

/-- The selection predicate of `getAlertsNeedingEscalation`: status ACTIVE,
`escalation.level < 3`, and `triggeredAt ≤ now - threshold(priority)`
(the `$lte` comparison of the mongo query). -/
def needsEscalation (now : ℤ) (a : Alert) : Bool :=
  decide (a.status = .ACTIVE) &&
  decide (a.escalationLevel < 3) &&
  decide (a.triggeredAt ≤ now - escalationThresholdMs a.priority)

/-- `Alert.getAlertsNeedingEscalation()` applied to a collection of
alerts at time `now`. -/
def getAlertsNeedingEscalation (now : ℤ) (alerts : List Alert) : List Alert :=
  alerts.filter (needsEscalation now)

/-- The periodic sweep of the websocket handler module: fetch the alerts
needing escalation and apply `escalate('SYSTEM_AUTO_ESCALATION')` to each
selected alert once. -/
def escalationSweep (now : ℤ) (alerts : List Alert) : List Alert :=
  (getAlertsNeedingEscalation now alerts).map
    (fun a => a.escalate "SYSTEM_AUTO_ESCALATION" now)

/-- Outcome of one outbound attempt of the axios client: a response value,
or a thrown error carrying `error.response.status` when a response with an
HTTP status was received (`none` models timeouts / connection errors). -/
inductive ReqOutcome (α : Type) where
  | ok (v : α)
  | fail (status : Option ℕ)
deriving DecidableEq, Repr

/-- The non-retry test of `retryRequest`:
`error.response && error.response.status >= 400 && error.response.status < 500`. -/
def isClientError : Option ℕ → Bool
  | some s => decide (400 ≤ s) && decide (s < 500)
  | none => false

/-- Result of `AIService.retryRequest`: the value returned or the error
finally thrown, the number of attempts consumed, and the backoff delays
slept (ms, in order). -/
structure RetryResult (α : Type) where
  result : Except (Option ℕ) α
  attempts : ℕ
  delays : List ℕ
deriving Repr

/-- The loop body of `AIService.retryRequest` (aiService.js): `attempt` is
the 1-based loop counter, `remaining` the number of later iterations the
`for` loop still allows (`retryAttempts - attempt`), and `delays` the
backoff delays slept so far (reversed).  A 4xx-class error is rethrown at
once; otherwise, while attempts remain, sleep `retryDelay * 2^(attempt-1)`
and try again; after the last attempt throw the last error. -/
def retryGo (outcomes : ℕ → ReqOutcome α) (retryDelay : ℕ) :
    ℕ → ℕ → List ℕ → RetryResult α
  | attempt, remaining, delays =>
    match outcomes attempt with
    | .ok v => ⟨.ok v, attempt, delays.reverse⟩
    | .fail st =>
      if isClientError st then ⟨.error st, attempt, delays.reverse⟩
      else
        match remaining with
        | 0 => ⟨.error st, attempt, delays.reverse⟩
        | r + 1 =>
          retryGo outcomes retryDelay (attempt + 1) r
            (retryDelay * 2 ^ (attempt - 1) :: delays)

/-- `AIService.retryRequest(requestFn)` with the service configuration
`retryAttempts`, `retryDelay`; `outcomes n` is what the wrapped request
does on its `n`-th invocation. -/
def retryRequest (outcomes : ℕ → ReqOutcome α) (retryAttempts retryDelay : ℕ) :
    RetryResult α :=
  retryGo outcomes retryDelay 1 (retryAttempts - 1) []

/-- The raw JSON body of a `/predict` response
(`{risk_level, confidence, contributing_factors, model_version}`). -/
structure RemotePayload where
  risk_level : String
  confidence : ℚ
  contributing_factors : List String
  model_version : Option String
deriving DecidableEq, Repr

/-- The snake-case → schema-name factor mapping of
`validatePredictionResponse`; unknown names pass through unchanged. -/
def mapFactorName (s : String) : String :=
  if s = "rainfall_mm" then "Rainfall_mm"
  else if s = "slope_angle" then "Slope_Angle"
  else if s = "soil_saturation" then "Soil_Saturation"
  else if s = "vegetation_cover" then "Vegetation_Cover"
  else if s = "earthquake_activity" then "Earthquake_Activity"
  else if s = "proximity_to_water" then "Proximity_to_Water"
  else if s = "landslide" then "Landslide"
  else if s = "soil_type_gravel" then "Soil_Type_Gravel"
  else if s = "soil_type_sand" then "Soil_Type_Sand"
  else if s = "soil_type_silt" then "Soil_Type_Silt"
  else s

/-- `Math.round(confidence * 1000) / 1000` on a rational. -/
def roundConfidence (c : ℚ) : ℚ :=
  (round (c * 1000) : ℤ) / 1000

/-- `AIService.validatePredictionResponse(response)`: reject a risk level
outside {LOW, MEDIUM, HIGH} or a confidence outside [0,1]; otherwise map
the factor names, drop empty ones, and build the Prediction. -/
def validatePredictionResponse (resp : RemotePayload) : Except String Prediction :=
  if resp.risk_level ≠ "LOW" ∧ resp.risk_level ≠ "MEDIUM" ∧ resp.risk_level ≠ "HIGH" then
    .error "Invalid risk level"
  else if resp.confidence < 0 ∨ resp.confidence > 1 then
    .error "Invalid confidence score"
  else
    .ok { level := if resp.risk_level = "LOW" then .LOW
                   else if resp.risk_level = "MEDIUM" then .MEDIUM
                   else .HIGH,
          confidence := roundConfidence resp.confidence,
          factors := (resp.contributing_factors.map mapFactorName).filter (· ≠ ""),
          aiModelVersion := resp.model_version.getD "1.0",
          processingTime := 0 }

/-- `AIService.getPrediction(sensorData)` (aiService.js), with the outbound
call abstracted by `outcomes`: run `retryRequest` around the POST, then —
only after the retry loop has returned a response — validate the payload.
Returns the prediction or the error raised, together with the number of
attempts the retry loop consumed. -/
def getPrediction (outcomes : ℕ → ReqOutcome RemotePayload) :
    Except String Prediction × ℕ :=
  let rr := retryRequest outcomes 3 1000
  match rr.result with
  | .error _ => (.error "AI prediction failed: request error", rr.attempts)
  | .ok payload =>
    match validatePredictionResponse payload with
    | .error e => (.error e, rr.attempts)
    | .ok p => (.ok p, rr.attempts)

/-- Input to POST /api/readings after Joi validation. -/
structure ReadingInput where
  sensorId : String
  timestamp : ℤ
  readings : Readings
deriving DecidableEq, Repr

/-- A persisted SensorReading document (the fields the core writes). -/
structure StoredReading where
  sensorId : String
  timestamp : ℤ
  readings : Readings
  riskPrediction : Prediction
deriving DecidableEq, Repr

/-- The observable effects of one POST /api/readings call. -/
structure PostReadingEffects where
  savedReading : StoredReading
  emittedRiskUpdate : Bool
  createdAlerts : List Alert
deriving DecidableEq, Repr

/-- POST /api/readings (server/routes/sensorReadings.js).  `sensorExists`
is the `Sensor.findOne` lookup; `outcome` is what `aiService.getPrediction`
does.  On a prediction error the route substitutes
`generateFallbackPrediction(value.readings)` and continues.  The handler
persists the reading, emits a `risk-update` event when the level is HIGH,
and returns 201 with the reading; it constructs no Alert document on any
path, so `createdAlerts` is always `[]`. -/
def postReading (input : ReadingInput) (sensorExists : Bool)
    (outcome : Except String Prediction) : Except String PostReadingEffects :=
  if ¬ validReadings input.readings then
    .error "Validation failed"
  else if ¬ sensorExists then
    .error "Sensor not found"
  else
    let aiPrediction :=
      match outcome with
      | .ok p => p
      | .error _ => generateFallbackPrediction input.readings
    .ok { savedReading := { sensorId := input.sensorId,
                            timestamp := input.timestamp,
                            readings := input.readings,
                            riskPrediction := aiPrediction },
          emittedRiskUpdate := decide (aiPrediction.level = .HIGH),
          createdAlerts := [] }

/-- The sensor fields the simulator consults when building an alert. -/
structure SensorDoc where
  sensorId : String
  alertThreshold : String → ℚ
deriving Inhabited

/-- `reading.readings[factor] || 0` for the numeric lookup inside
`BackendSensorSimulator.generateAlert` (booleans coerce to 1/0). -/
def readingValueOf (r : Readings) : String → ℚ
  | "Rainfall_mm" => r.Rainfall_mm
  | "Slope_Angle" => r.Slope_Angle
  | "Soil_Saturation" => r.Soil_Saturation
  | "Vegetation_Cover" => r.Vegetation_Cover
  | "Earthquake_Activity" => r.Earthquake_Activity
  | "Proximity_to_Water" => r.Proximity_to_Water
  | "Landslide" => r.Landslide
  | "Soil_Type_Gravel" => if r.Soil_Type_Gravel then 1 else 0
  | "Soil_Type_Sand" => if r.Soil_Type_Sand then 1 else 0
  | "Soil_Type_Silt" => if r.Soil_Type_Silt then 1 else 0
  | _ => 0

/-- `BackendSensorSimulator.generateAlert(sensor, reading, aiPrediction)`
(backendSensorSimulator.js): a new ACTIVE alert with priority hard-coded
to CRITICAL, trigger factors mapped from the prediction factors. -/
def simulatorAlert (sensor : SensorDoc) (saved : StoredReading)
    (p : Prediction) (now : ℤ) : Alert :=
  { alertId := "ALERT_" ++ toString now ++ "_" ++ sensor.sensorId,
    sensorId := sensor.sensorId,
    riskLevel := p.level,
    confidence := p.confidence,
    triggeredAt := now,
    acknowledgedAt := none, acknowledgedBy := none,
    resolvedAt := none, resolvedBy := none,
    status := .ACTIVE,
    priority := .CRITICAL,
    escalationLevel := 0, escalatedAt := none, escalatedTo := none,
    triggerFactors := p.factors.map (fun f =>
      { factor := f,
        value := readingValueOf saved.readings f,
        threshold := sensor.alertThreshold f,
        severity := p.level }),
    actionsTaken := [],
    affectedAreaRadius := 200,
    aiModelVersion := p.aiModelVersion }

/-- `BackendSensorSimulator.generateSensorReading(sensor)` with the random
reading and the AI call abstracted.  There is no fallback on this path:
`getPrediction` throwing aborts the cycle for this sensor.  On success the
reading is saved and an alert is generated exactly when
`aiPrediction.level === 'HIGH' && aiPrediction.confidence > 0.5`. -/
def generateSensorReading (sensor : SensorDoc) (r : Readings)
    (outcome : Except String Prediction) (now : ℤ) :
    Except String (StoredReading × Option Alert) :=
  match outcome with
  | .error e => .error e
  | .ok p =>
    let saved : StoredReading :=
      { sensorId := sensor.sensorId, timestamp := now,
        readings := r, riskPrediction := p }
    if p.level = .HIGH ∧ p.confidence > 1/2 then
      .ok (saved, some (simulatorAlert sensor saved p now))
    else
      .ok (saved, none)

/-- The §8 scenario reading: rainfall 85, slope 72, saturation 0.85,
vegetation 0.15, earthquake 3.2, water 25, landslide 0.75, silt soil. -/
def scenarioReading : Readings :=
  { Rainfall_mm := 85, Slope_Angle := 72, Soil_Saturation := 17/20,
    Vegetation_Cover := 3/20, Earthquake_Activity := 16/5,
    Proximity_to_Water := 25, Landslide := 3/4,
    Soil_Type_Gravel := false, Soil_Type_Sand := false, Soil_Type_Silt := true }

/-- A freshly created LOW-priority ACTIVE alert at escalation level 0. -/
def lowAlert : Alert :=
  { alertId := "ALERT_0_S1", sensorId := "S1",
    riskLevel := .HIGH, confidence := 7/10, triggeredAt := 0,
    acknowledgedAt := none, acknowledgedBy := none,
    resolvedAt := none, resolvedBy := none,
    status := .ACTIVE, priority := .LOW,
    escalationLevel := 0, escalatedAt := none, escalatedTo := none,
    triggerFactors := [], actionsTaken := [],
    affectedAreaRadius := 100, aiModelVersion := "fallback-2.0" }

/-- Unfolded form of the fallback classifier used by several proofs. -/
theorem generateFallbackPrediction_eq (r : Readings) :
    generateFallbackPrediction r =
      if fallbackScore r ≥ 60 then
        { level := .HIGH, confidence := 7/10, factors := fallbackFactors r,
          aiModelVersion := "fallback-2.0", processingTime := 10 }
      else if fallbackScore r ≥ 30 then
        { level := .MEDIUM, confidence := 6/10, factors := fallbackFactors r,
          aiModelVersion := "fallback-2.0", processingTime := 10 }
      else
        { level := .LOW, confidence := 8/10, factors := fallbackFactors r,
          aiModelVersion := "fallback-2.0", processingTime := 10 } := rfl

/-- Claim C1: on any validated feature vector the fallback classifier's
score is the sum of the nine table contributions, its level/confidence obey
the 60/30 thresholds (HIGH 0.7, MEDIUM 0.6, LOW 0.8), its factor list is
the triggered conditions in table order, and a vector whose only triggered
condition is slope_angle > 50 scores exactly 30 and is classified
MEDIUM. -/
theorem claim_C1_fallback_policy (r : Readings) (hv : validReadings r) :
    fallbackScore r =
      (if r.Slope_Angle > 50 then 30 else 0) +
      (if r.Rainfall_mm > 50 then 25 else 0) +
      (if r.Earthquake_Activity > 2 then 20 else 0) +
      (if r.Soil_Saturation > 7/10 then 15 else 0) +
      (if r.Vegetation_Cover < 3/10 then 10 else 0) +
      (if r.Proximity_to_Water < 50 then 10 else 0) +
      (if r.Landslide > 1/2 then 25 else 0) +
      (if r.Soil_Type_Sand = true ∧ r.Soil_Saturation > 1/2 then 5 else 0) +
      (if r.Soil_Type_Silt = true ∧ r.Rainfall_mm > 30 then 8 else 0) ∧
    (60 ≤ fallbackScore r →
      (generateFallbackPrediction r).level = .HIGH ∧
      (generateFallbackPrediction r).confidence = 7/10) ∧
    (30 ≤ fallbackScore r → fallbackScore r < 60 →
      (generateFallbackPrediction r).level = .MEDIUM ∧
      (generateFallbackPrediction r).confidence = 6/10) ∧
    (fallbackScore r < 30 →
      (generateFallbackPrediction r).level = .LOW ∧
      (generateFallbackPrediction r).confidence = 8/10) ∧
    (generateFallbackPrediction r).factors =
      (if r.Slope_Angle > 50 then ["Slope_Angle"] else []) ++
      (if r.Rainfall_mm > 50 then ["Rainfall_mm"] else []) ++
      (if r.Earthquake_Activity > 2 then ["Earthquake_Activity"] else []) ++
      (if r.Soil_Saturation > 7/10 then ["Soil_Saturation"] else []) ++
      (if r.Vegetation_Cover < 3/10 then ["Vegetation_Cover"] else []) ++
      (if r.Proximity_to_Water < 50 then ["Proximity_to_Water"] else []) ++
      (if r.Landslide > 1/2 then ["Landslide"] else []) ++
      (if r.Soil_Type_Sand = true ∧ r.Soil_Saturation > 1/2 then ["Soil_Type_Sand"] else []) ++
      (if r.Soil_Type_Silt = true ∧ r.Rainfall_mm > 30 then ["Soil_Type_Silt"] else []) ∧
    (r.Slope_Angle > 50 →
      ¬ r.Rainfall_mm > 50 → ¬ r.Earthquake_Activity > 2 →
      ¬ r.Soil_Saturation > 7/10 → ¬ r.Vegetation_Cover < 3/10 →
      ¬ r.Proximity_to_Water < 50 → ¬ r.Landslide > 1/2 →
      ¬ (r.Soil_Type_Sand = true ∧ r.Soil_Saturation > 1/2) →
      ¬ (r.Soil_Type_Silt = true ∧ r.Rainfall_mm > 30) →
      fallbackScore r = 30 ∧ (generateFallbackPrediction r).level = .MEDIUM) := by
  refine ⟨rfl, ?_, ?_, ?_, ?_, ?_⟩
  · intro h60
    rw [generateFallbackPrediction_eq, if_pos h60]
    exact ⟨rfl, rfl⟩
  · intro h30 h60
    rw [generateFallbackPrediction_eq, if_neg (by omega), if_pos h30]
    exact ⟨rfl, rfl⟩
  · intro h30
    rw [generateFallbackPrediction_eq, if_neg (by omega), if_neg (by omega)]
    exact ⟨rfl, rfl⟩
  · show (generateFallbackPrediction r).factors = fallbackFactors r
    rw [generateFallbackPrediction_eq]
    rcases le_or_lt 60 (fallbackScore r) with h1 | h1
    · rw [if_pos h1]
    · rw [if_neg (by omega)]
      rcases le_or_lt 30 (fallbackScore r) with h2 | h2
      · rw [if_pos h2]
      · rw [if_neg (by omega)]
  · intro h1 h2 h3 h4 h5 h6 h7 h8 h9
    have hs : fallbackScore r = 30 := by
      unfold fallbackScore
      rw [if_pos h1, if_neg h2, if_neg h3, if_neg h4, if_neg h5, if_neg h6,
        if_neg h7, if_neg h8, if_neg h9]
    refine ⟨hs, ?_⟩
    rw [generateFallbackPrediction_eq, if_neg (by omega), if_pos (by omega)]

/-- Witness for C1 at the slope-only reading: the ranges are valid, the
only triggered rule is the slope rule, and the classifier returns score 30
with level MEDIUM. -/
theorem claim_C1_witness :
    fallbackScore slopeOnlyReading = 30 ∧
    (generateFallbackPrediction slopeOnlyReading).level = .MEDIUM :=
  (claim_C1_fallback_policy slopeOnlyReading
      (by unfold validReadings slopeOnlyReading; norm_num)).2.2.2.2.2
    (by unfold slopeOnlyReading; norm_num)
    (by unfold slopeOnlyReading; norm_num) (by unfold slopeOnlyReading; norm_num)
    (by unfold slopeOnlyReading; norm_num) (by unfold slopeOnlyReading; norm_num)
    (by unfold slopeOnlyReading; norm_num) (by unfold slopeOnlyReading; norm_num)
    (by unfold slopeOnlyReading; norm_num) (by unfold slopeOnlyReading; norm_num)


theorem escalate_escalationLevel (a : Alert) (t : String) (n : ℤ) :
    (a.escalate t n).escalationLevel = a.escalationLevel + 1 := by
  unfold Alert.escalate; dsimp only; split_ifs <;> rfl

theorem escalate_status (a : Alert) (t : String) (n : ℤ) :
    (a.escalate t n).status = a.status := by
  unfold Alert.escalate; dsimp only; split_ifs <;> rfl

theorem escalate_escalatedAt (a : Alert) (t : String) (n : ℤ) :
    (a.escalate t n).escalatedAt = some n := by
  unfold Alert.escalate; dsimp only; split_ifs <;> rfl

theorem escalate_escalatedTo (a : Alert) (t : String) (n : ℤ) :
    (a.escalate t n).escalatedTo = some t := by
  unfold Alert.escalate; dsimp only; split_ifs <;> rfl

theorem escalate_priority_of_low_level (a : Alert) (t : String) (n : ℤ)
    (h : a.escalationLevel + 1 < 3) : (a.escalate t n).priority = a.priority := by
  unfold Alert.escalate
  dsimp only
  rw [if_neg]
  rintro ⟨h3, -⟩
  exact absurd h3 (by omega)

theorem escalate_priority_of_critical (a : Alert) (t : String) (n : ℤ)
    (h : a.priority = .CRITICAL) : (a.escalate t n).priority = a.priority := by
  unfold Alert.escalate
  dsimp only
  rw [if_neg]
  rintro ⟨-, hne⟩
  exact hne h

theorem priorityIndex_le_two (p : Priority) (h : p ≠ .CRITICAL) :
    priorityIndex p ≤ 2 := by
  cases p <;> simp_all [priorityIndex]

theorem escalate_priority_step (a : Alert) (t : String) (n : ℤ)
    (h3 : 3 ≤ a.escalationLevel + 1) (hnc : a.priority ≠ .CRITICAL) :
    (a.escalate t n).priority = priorityOfIndex (priorityIndex a.priority + 1) := by
  unfold Alert.escalate
  dsimp only
  rw [if_pos ⟨h3, hnc⟩]
  show priorityOfIndex (min (priorityIndex a.priority + 1) 3) = _
  rw [min_eq_left (by have := priorityIndex_le_two a.priority hnc; omega)]

theorem escalateRoute_ok_iff (a : Alert) (t : String) (n : ℤ) (b : Alert) :
    escalateRoute a t n = .ok b ↔
      a.status = .ACTIVE ∧ a.escalationLevel < 3 ∧ b = a.escalate t n := by
  unfold escalateRoute
  constructor
  · intro h
    by_cases h1 : a.status ≠ .ACTIVE
    · rw [if_pos h1] at h; cases h
    · rw [if_neg h1] at h
      by_cases h2 : a.escalationLevel ≥ 3
      · rw [if_pos h2] at h; cases h
      · rw [if_neg h2] at h
        cases h
        exact ⟨not_not.mp h1, by omega, rfl⟩
  · rintro ⟨h1, h2, rfl⟩
    rw [if_neg (not_not_intro h1), if_neg (by omega)]

theorem acknowledgeRoute_ok_iff (a : Alert) (x : String) (n : ℤ) (b : Alert) :
    acknowledgeRoute a x n = .ok b ↔
      a.status = .ACTIVE ∧ b = a.acknowledge x n := by
  unfold acknowledgeRoute
  constructor
  · intro h
    by_cases h1 : a.status ≠ .ACTIVE
    · rw [if_pos h1] at h; cases h
    · rw [if_neg h1] at h; cases h; exact ⟨not_not.mp h1, rfl⟩
  · rintro ⟨h1, rfl⟩
    rw [if_neg (not_not_intro h1)]

theorem resolveRoute_ok_iff (a : Alert) (x : String) (res : AlertStatus) (n : ℤ)
    (b : Alert) :
    resolveRoute a x res n = .ok b ↔
      (res = .RESOLVED ∨ res = .FALSE_POSITIVE) ∧
      ¬ (a.status = .RESOLVED ∨ a.status = .FALSE_POSITIVE) ∧
      b = a.resolve x res n := by
  unfold resolveRoute
  constructor
  · intro h
    by_cases h1 : res ≠ .RESOLVED ∧ res ≠ .FALSE_POSITIVE
    · rw [if_pos h1] at h; cases h
    · rw [if_neg h1] at h
      by_cases h2 : a.status = .RESOLVED ∨ a.status = .FALSE_POSITIVE
      · rw [if_pos h2] at h; cases h
      · rw [if_neg h2] at h; cases h
        refine ⟨?_, h2, rfl⟩
        by_cases hr : res = .RESOLVED
        · exact .inl hr
        · right
          by_cases hf : res = .FALSE_POSITIVE
          · exact hf
          · exact absurd ⟨hr, hf⟩ h1
  · rintro ⟨h1, h2, rfl⟩
    have hnv : ¬ (res ≠ .RESOLVED ∧ res ≠ .FALSE_POSITIVE) := by
      rcases h1 with h | h <;> simp [h]
    rw [if_neg hnv, if_neg h2]

/-- Claim C10: `acknowledge` writes only status / acknowledgedAt /
acknowledgedBy and `resolve` writes only status / resolvedAt / resolvedBy;
every other alert field is untouched by either operation. -/
theorem claim_C10_frame (a : Alert) (actor : String) (now : ℤ)
    (resolution : AlertStatus) :
    ((a.acknowledge actor now).status = .ACKNOWLEDGED ∧
     (a.acknowledge actor now).acknowledgedAt = some now ∧
     (a.acknowledge actor now).acknowledgedBy = some actor ∧
     (a.acknowledge actor now).alertId = a.alertId ∧
     (a.acknowledge actor now).sensorId = a.sensorId ∧
     (a.acknowledge actor now).riskLevel = a.riskLevel ∧
     (a.acknowledge actor now).confidence = a.confidence ∧
     (a.acknowledge actor now).triggeredAt = a.triggeredAt ∧
     (a.acknowledge actor now).resolvedAt = a.resolvedAt ∧
     (a.acknowledge actor now).resolvedBy = a.resolvedBy ∧
     (a.acknowledge actor now).priority = a.priority ∧
     (a.acknowledge actor now).escalationLevel = a.escalationLevel ∧
     (a.acknowledge actor now).escalatedAt = a.escalatedAt ∧
     (a.acknowledge actor now).escalatedTo = a.escalatedTo ∧
     (a.acknowledge actor now).triggerFactors = a.triggerFactors ∧
     (a.acknowledge actor now).actionsTaken = a.actionsTaken ∧
     (a.acknowledge actor now).affectedAreaRadius = a.affectedAreaRadius ∧
     (a.acknowledge actor now).aiModelVersion = a.aiModelVersion) ∧
    ((a.resolve actor resolution now).status = resolution ∧
     (a.resolve actor resolution now).resolvedAt = some now ∧
     (a.resolve actor resolution now).resolvedBy = some actor ∧
     (a.resolve actor resolution now).alertId = a.alertId ∧
     (a.resolve actor resolution now).sensorId = a.sensorId ∧
     (a.resolve actor resolution now).riskLevel = a.riskLevel ∧
     (a.resolve actor resolution now).confidence = a.confidence ∧
     (a.resolve actor resolution now).triggeredAt = a.triggeredAt ∧
     (a.resolve actor resolution now).acknowledgedAt = a.acknowledgedAt ∧
     (a.resolve actor resolution now).acknowledgedBy = a.acknowledgedBy ∧
     (a.resolve actor resolution now).priority = a.priority ∧
     (a.resolve actor resolution now).escalationLevel = a.escalationLevel ∧
     (a.resolve actor resolution now).escalatedAt = a.escalatedAt ∧
     (a.resolve actor resolution now).escalatedTo = a.escalatedTo ∧
     (a.resolve actor resolution now).triggerFactors = a.triggerFactors ∧
     (a.resolve actor resolution now).actionsTaken = a.actionsTaken ∧
     (a.resolve actor resolution now).affectedAreaRadius = a.affectedAreaRadius ∧
     (a.resolve actor resolution now).aiModelVersion = a.aiModelVersion) :=
  ⟨⟨rfl, rfl, rfl, rfl, rfl, rfl, rfl, rfl, rfl, rfl, rfl, rfl, rfl, rfl, rfl,
    rfl, rfl, rfl⟩,
   ⟨rfl, rfl, rfl, rfl, rfl, rfl, rfl, rfl, rfl, rfl, rfl, rfl, rfl, rfl, rfl,
    rfl, rfl, rfl⟩⟩

/-- Claim C7: escalating an ACTIVE alert with escalation level < 3
increments the level by exactly one and records the escalation time and
target; the priority changes only when the incremented level reaches 3 and
the priority was below CRITICAL, and then it rises exactly one step in the
order LOW → MEDIUM → HIGH → CRITICAL. -/
theorem claim_C7_escalate_step (a : Alert) (target : String) (now : ℤ)
    (hs : a.status = .ACTIVE) (hl : a.escalationLevel < 3) :
    (a.escalate target now).escalationLevel = a.escalationLevel + 1 ∧
    (a.escalate target now).escalatedAt = some now ∧
    (a.escalate target now).escalatedTo = some target ∧
    (a.escalationLevel + 1 < 3 → (a.escalate target now).priority = a.priority) ∧
    (a.priority = .CRITICAL → (a.escalate target now).priority = a.priority) ∧
    (a.escalationLevel + 1 = 3 → a.priority ≠ .CRITICAL →
      (a.escalate target now).priority = priorityOfIndex (priorityIndex a.priority + 1)) ∧
    (a.escalationLevel = 2 → a.priority = .LOW →
      (a.escalate target now).priority = .MEDIUM) ∧
    (a.escalationLevel = 2 → a.priority = .MEDIUM →
      (a.escalate target now).priority = .HIGH) ∧
    (a.escalationLevel = 2 → a.priority = .HIGH →
      (a.escalate target now).priority = .CRITICAL) := by
  refine ⟨escalate_escalationLevel a target now, escalate_escalatedAt a target now,
    escalate_escalatedTo a target now,
    fun h => escalate_priority_of_low_level a target now h,
    fun h => escalate_priority_of_critical a target now h,
    fun h3 hnc => escalate_priority_step a target now (by omega) hnc, ?_, ?_, ?_⟩
  · intro h2 hp
    rw [escalate_priority_step a target now (by omega) (by rw [hp]; decide), hp]
    rfl
  · intro h2 hp
    rw [escalate_priority_step a target now (by omega) (by rw [hp]; decide), hp]
    rfl
  · intro h2 hp
    rw [escalate_priority_step a target now (by omega) (by rw [hp]; decide), hp]
    rfl

/-- Witness for C7 at the LOW / level-0 / ACTIVE fixture. -/
theorem claim_C7_witness :
    (lowAlert.escalate "supervisor" 5).escalationLevel = lowAlert.escalationLevel + 1 ∧
    (lowAlert.escalate "supervisor" 5).escalatedTo = some "supervisor" :=
  ⟨(claim_C7_escalate_step lowAlert "supervisor" 5 rfl (by decide)).1,
   (claim_C7_escalate_step lowAlert "supervisor" 5 rfl (by decide)).2.2.1⟩

/-- Counterexample for claim C3: three escalations through the route,
starting from the LOW-priority level-0 ACTIVE alert, leave the priority at
MEDIUM (one step up), not CRITICAL; the fourth attempt does fail. -/
theorem claim_C3_counterexample :
    ∃ a3 : Alert,
      ((escalateRoute lowAlert "sup1" 1).bind (fun a => escalateRoute a "sup2" 2)).bind
          (fun a => escalateRoute a "sup3" 3) = .ok a3 ∧
      a3.escalationLevel = 3 ∧
      a3.priority = .MEDIUM ∧
      a3.priority ≠ .CRITICAL ∧
      escalateRoute a3 "sup4" 4 = .error "Alert is already at maximum escalation level" := by
  refine ⟨_, rfl, ?_, ?_, ?_, ?_⟩ <;> first | rfl | decide

/-- Claim C3 as amended: from an ACTIVE LOW-priority alert at escalation
level 0, three escalations through the route reach level 3 with priority
MEDIUM (raised one step when level 3 is reached, not CRITICAL) and a
fourth attempt fails; in general a route escalation succeeds only below
level 3 and increments the level by exactly one, so the level is capped at
3 and only increases. -/
theorem claim_C3_amended (a : Alert) (hs : a.status = .ACTIVE)
    (hl : a.escalationLevel = 0) (hp : a.priority = .LOW)
    (t1 t2 t3 t4 : String) (n1 n2 n3 n4 : ℤ) :
    (∃ a3 : Alert,
      ((escalateRoute a t1 n1).bind (fun x => escalateRoute x t2 n2)).bind
          (fun x => escalateRoute x t3 n3) = .ok a3 ∧
      a3.escalationLevel = 3 ∧ a3.priority = .MEDIUM ∧
      escalateRoute a3 t4 n4 = .error "Alert is already at maximum escalation level") ∧
    (∀ (b b' : Alert) (t : String) (n : ℤ), escalateRoute b t n = .ok b' →
      b.escalationLevel < 3 ∧ b'.escalationLevel = b.escalationLevel + 1) ∧
    (∀ (b b' : Alert) (t : String) (n : ℤ), escalateRoute b t n = .ok b' →
      b'.escalationLevel = 3 → b.priority ≠ .CRITICAL →
      b'.priority = priorityOfIndex (priorityIndex b.priority + 1)) := by
  refine ⟨?_, ?_, ?_⟩
  · have e1 : escalateRoute a t1 n1 = .ok (a.escalate t1 n1) :=
      (escalateRoute_ok_iff a t1 n1 _).mpr ⟨hs, by omega, rfl⟩
    have l1 : (a.escalate t1 n1).escalationLevel = 1 := by
      rw [escalate_escalationLevel, hl]
    have s1 : (a.escalate t1 n1).status = .ACTIVE := by rw [escalate_status, hs]
    have p1 : (a.escalate t1 n1).priority = .LOW := by
      rw [escalate_priority_of_low_level a t1 n1 (by omega), hp]
    set b1 := a.escalate t1 n1 with hb1
    have e2 : escalateRoute b1 t2 n2 = .ok (b1.escalate t2 n2) :=
      (escalateRoute_ok_iff b1 t2 n2 _).mpr ⟨s1, by omega, rfl⟩
    have l2 : (b1.escalate t2 n2).escalationLevel = 2 := by
      rw [escalate_escalationLevel, l1]
    have s2 : (b1.escalate t2 n2).status = .ACTIVE := by rw [escalate_status, s1]
    have p2 : (b1.escalate t2 n2).priority = .LOW := by
      rw [escalate_priority_of_low_level b1 t2 n2 (by omega), p1]
    set b2 := b1.escalate t2 n2 with hb2
    have e3 : escalateRoute b2 t3 n3 = .ok (b2.escalate t3 n3) :=
      (escalateRoute_ok_iff b2 t3 n3 _).mpr ⟨s2, by omega, rfl⟩
    have l3 : (b2.escalate t3 n3).escalationLevel = 3 := by
      rw [escalate_escalationLevel, l2]
    have p3 : (b2.escalate t3 n3).priority = .MEDIUM := by
      rw [escalate_priority_step b2 t3 n3 (by omega) (by rw [p2]; decide), p2]
      rfl
    refine ⟨b2.escalate t3 n3, ?_, l3, p3, ?_⟩
    · rw [e1]
      show (escalateRoute b1 t2 n2).bind (fun x => escalateRoute x t3 n3) = _
      rw [e2]
      show escalateRoute b2 t3 n3 = _
      rw [e3]
    · unfold escalateRoute
      rw [if_neg (by rw [escalate_status, s2]; decide), if_pos (by omega)]
  · intro b b' t n h
    obtain ⟨h1, h2, rfl⟩ := (escalateRoute_ok_iff b t n b').mp h
    exact ⟨h2, escalate_escalationLevel b t n⟩
  · intro b b' t n h h3 hnc
    obtain ⟨h1, h2, rfl⟩ := (escalateRoute_ok_iff b t n b').mp h
    rw [escalate_escalationLevel] at h3
    exact escalate_priority_step b t n (by omega) hnc

/-- Witness for C3-as-amended at the concrete LOW fixture. -/
theorem claim_C3_witness :
    ∃ a3 : Alert,
      ((escalateRoute lowAlert "w1" 1).bind (fun x => escalateRoute x "w2" 2)).bind
          (fun x => escalateRoute x "w3" 3) = .ok a3 ∧
      a3.escalationLevel = 3 ∧ a3.priority = .MEDIUM ∧
      escalateRoute a3 "w4" 4 = .error "Alert is already at maximum escalation level" :=
  (claim_C3_amended lowAlert rfl rfl rfl "w1" "w2" "w3" "w4" 1 2 3 4).1

/-- The LOW fixture after an operator acknowledgement. -/
def ackAlert : Alert :=
  { lowAlert with status := .ACKNOWLEDGED,
                  acknowledgedAt := some 1, acknowledgedBy := some "op" }

/-- Counterexample for claim C6: resolve is NOT restricted to ACTIVE —
on an ACKNOWLEDGED alert (status ≠ ACTIVE) the resolve route succeeds. -/
theorem claim_C6_counterexample :
    ackAlert.status ≠ .ACTIVE ∧
    ∃ b : Alert, resolveRoute ackAlert "op2" .RESOLVED 9 = .ok b ∧
      b.status = .RESOLVED := by
  exact ⟨by decide, _, rfl, rfl⟩

/-- Claim C6 as amended: a RESOLVED or FALSE_POSITIVE alert rejects
acknowledge, resolve and escalate (the route errors before touching it);
acknowledge and escalate succeed only from ACTIVE; resolve may proceed
from ACTIVE or ACKNOWLEDGED; and an ACTIVE alert can go
ACTIVE → ACKNOWLEDGED → RESOLVED, after which all three operations fail. -/
theorem claim_C6_amended :
    (∀ (a : Alert) (x y z : String) (res : AlertStatus) (n : ℤ),
      a.status = .RESOLVED ∨ a.status = .FALSE_POSITIVE →
      (res = .RESOLVED ∨ res = .FALSE_POSITIVE) →
      acknowledgeRoute a x n = .error "Only active alerts can be acknowledged" ∧
      resolveRoute a y res n = .error "Alert is already resolved" ∧
      escalateRoute a z n = .error "Only active alerts can be escalated") ∧
    (∀ (a b : Alert) (x : String) (n : ℤ),
      acknowledgeRoute a x n = .ok b → a.status = .ACTIVE) ∧
    (∀ (a b : Alert) (x : String) (n : ℤ),
      escalateRoute a x n = .ok b → a.status = .ACTIVE) ∧
    (∀ (a b : Alert) (x : String) (res : AlertStatus) (n : ℤ),
      resolveRoute a x res n = .ok b →
      a.status = .ACTIVE ∨ a.status = .ACKNOWLEDGED) ∧
    (∀ (a : Alert) (x y : String) (n m : ℤ), a.status = .ACTIVE →
      ∃ b c : Alert,
        acknowledgeRoute a x n = .ok b ∧ b.status = .ACKNOWLEDGED ∧
        resolveRoute b y .RESOLVED m = .ok c ∧ c.status = .RESOLVED ∧
        (∀ (u : String) (k : ℤ),
          acknowledgeRoute c u k = .error "Only active alerts can be acknowledged" ∧
          escalateRoute c u k = .error "Only active alerts can be escalated" ∧
          ∀ res2 : AlertStatus, res2 = .RESOLVED ∨ res2 = .FALSE_POSITIVE →
            resolveRoute c u res2 k = .error "Alert is already resolved")) := by
  refine ⟨?_, ?_, ?_, ?_, ?_⟩
  · intro a x y z res n hterm hres
    have hne : a.status ≠ .ACTIVE := by
      rcases hterm with h | h <;> rw [h] <;> decide
    have hnres : ¬ (res ≠ .RESOLVED ∧ res ≠ .FALSE_POSITIVE) := by
      rcases hres with h | h <;> simp [h]
    refine ⟨?_, ?_, ?_⟩
    · unfold acknowledgeRoute; rw [if_pos hne]
    · unfold resolveRoute; rw [if_neg hnres, if_pos hterm]
    · unfold escalateRoute; rw [if_pos hne]
  · intro a b x n h
    exact ((acknowledgeRoute_ok_iff a x n b).mp h).1
  · intro a b x n h
    exact ((escalateRoute_ok_iff a x n b).mp h).1
  · intro a b x res n h
    obtain ⟨-, h2, -⟩ := (resolveRoute_ok_iff a x res n b).mp h
    rcases ha : a.status with _ | _ | _ | _
    · exact .inl rfl
    · exact .inr rfl
    · exact absurd (.inl ha) h2
    · exact absurd (.inr ha) h2
  · intro a x y n m hactive
    have hb : acknowledgeRoute a x n = .ok (a.acknowledge x n) :=
      (acknowledgeRoute_ok_iff a x n _).mpr ⟨hactive, rfl⟩
    have hbs : (a.acknowledge x n).status = .ACKNOWLEDGED := rfl
    have hc : resolveRoute (a.acknowledge x n) y .RESOLVED m =
        .ok ((a.acknowledge x n).resolve y .RESOLVED m) :=
      (resolveRoute_ok_iff _ y .RESOLVED m _).mpr
        ⟨.inl rfl, by rw [hbs]; decide, rfl⟩
    refine ⟨a.acknowledge x n, (a.acknowledge x n).resolve y .RESOLVED m,
      hb, hbs, hc, rfl, ?_⟩
    intro u k
    have hcs : ((a.acknowledge x n).resolve y .RESOLVED m).status = .RESOLVED := rfl
    refine ⟨?_, ?_, ?_⟩
    · unfold acknowledgeRoute; rw [if_pos (by rw [hcs]; decide)]
    · unfold escalateRoute; rw [if_pos (by rw [hcs]; decide)]
    · intro res2 hres2
      have hnres : ¬ (res2 ≠ .RESOLVED ∧ res2 ≠ .FALSE_POSITIVE) := by
        rcases hres2 with h | h <;> simp [h]
      unfold resolveRoute
      rw [if_neg hnres, if_pos (.inl hcs)]

/-- Witness for C6-as-amended: the terminal-state clause applied to a
concrete RESOLVED alert. -/
theorem claim_C6_witness :
    acknowledgeRoute { lowAlert with status := .RESOLVED } "u" 7 =
        .error "Only active alerts can be acknowledged" ∧
    resolveRoute { lowAlert with status := .RESOLVED } "u" .RESOLVED 7 =
        .error "Alert is already resolved" ∧
    escalateRoute { lowAlert with status := .RESOLVED } "u" 7 =
        .error "Only active alerts can be escalated" :=
  claim_C6_amended.1 { lowAlert with status := .RESOLVED } "u" "u" "u" .RESOLVED 7
    (.inl rfl) (.inl rfl)

/-- An ACTIVE HIGH-priority alert triggered at time 0. -/
def boundaryAlert : Alert :=
  { lowAlert with priority := .HIGH, triggeredAt := 0 }

/-- Counterexample for claim C5: at `now` exactly 5 minutes after the
trigger of an ACTIVE HIGH-priority alert, the query selects the alert
(`triggeredAt ≤ now - threshold` is a `≤`, not `<`) although its age does
NOT exceed the 5-minute threshold — it equals it. -/
theorem claim_C5_counterexample :
    getAlertsNeedingEscalation (5 * 60000) [boundaryAlert] = [boundaryAlert] ∧
    ¬ (5 * 60000 - boundaryAlert.triggeredAt >
        escalationThresholdMs boundaryAlert.priority) := by
  exact ⟨rfl, by decide⟩

/-- Claim C5 as amended: the sweep selects exactly the ACTIVE alerts with
escalation level < 3 whose age from trigger time is at least (≥, equality
included) the threshold of their priority — CRITICAL 2 min, HIGH 5 min,
MEDIUM 15 min, LOW 30 min — and escalates each selected alert exactly once
with target SYSTEM_AUTO_ESCALATION. -/
theorem claim_C5_amended :
    (∀ (now : ℤ) (alerts : List Alert) (a : Alert),
      a ∈ getAlertsNeedingEscalation now alerts ↔
        a ∈ alerts ∧ a.status = .ACTIVE ∧ a.escalationLevel < 3 ∧
        escalationThresholdMs a.priority ≤ now - a.triggeredAt) ∧
    escalationThresholdMs .CRITICAL = 2 * 60000 ∧
    escalationThresholdMs .HIGH = 5 * 60000 ∧
    escalationThresholdMs .MEDIUM = 15 * 60000 ∧
    escalationThresholdMs .LOW = 30 * 60000 ∧
    (∀ (now : ℤ) (alerts : List Alert),
      (escalationSweep now alerts).length =
        (getAlertsNeedingEscalation now alerts).length) ∧
    (∀ (now : ℤ) (alerts : List Alert) (a : Alert),
      a ∈ getAlertsNeedingEscalation now alerts →
        (a.escalate "SYSTEM_AUTO_ESCALATION" now).escalationLevel =
            a.escalationLevel + 1 ∧
        (a.escalate "SYSTEM_AUTO_ESCALATION" now).escalatedTo =
            some "SYSTEM_AUTO_ESCALATION" ∧
        a.escalate "SYSTEM_AUTO_ESCALATION" now ∈ escalationSweep now alerts) := by
  refine ⟨?_, rfl, rfl, rfl, rfl, ?_, ?_⟩
  · intro now alerts a
    unfold getAlertsNeedingEscalation needsEscalation
    rw [List.mem_filter]
    simp only [Bool.and_eq_true, decide_eq_true_eq]
    constructor
    · rintro ⟨h1, ⟨⟨h2, h3⟩, h4⟩⟩
      exact ⟨h1, h2, h3, by omega⟩
    · rintro ⟨h1, h2, h3, h4⟩
      exact ⟨h1, ⟨⟨h2, h3⟩, by omega⟩⟩
  · intro now alerts
    unfold escalationSweep
    rw [List.length_map]
  · intro now alerts a ha
    refine ⟨escalate_escalationLevel a _ now, escalate_escalatedTo a _ now, ?_⟩
    unfold escalationSweep
    exact List.mem_map_of_mem _ ha

/-- Witness for C5-as-amended: the membership characterization applied to
the boundary fixture at 6 minutes of age. -/
theorem claim_C5_witness :
    boundaryAlert ∈ getAlertsNeedingEscalation (6 * 60000) [boundaryAlert] :=
  (claim_C5_amended.1 (6 * 60000) [boundaryAlert] boundaryAlert).mpr
    ⟨List.mem_singleton.mpr rfl, rfl, by decide, by decide⟩

/-- Claim C4: with the service configuration (3 attempts, base delay
1000 ms), a call whose first failure carries a 4xx-class status makes
exactly one attempt, sleeps no backoff, and raises that error; a call that
keeps failing with non-4xx errors (timeout / 5xx / connection) makes
exactly 3 attempts with backoff delays 1000 ms then 2000 ms
(base × 2^(attempt-1)) and finally raises the last error. -/
theorem claim_C4_retry_policy :
    (∀ (outcomes : ℕ → ReqOutcome RemotePayload) (st : Option ℕ),
      outcomes 1 = .fail st → isClientError st = true →
      retryRequest outcomes 3 1000 =
        { result := .error st, attempts := 1, delays := [] }) ∧
    (∀ (outcomes : ℕ → ReqOutcome RemotePayload) (st1 st2 st3 : Option ℕ),
      outcomes 1 = .fail st1 → outcomes 2 = .fail st2 → outcomes 3 = .fail st3 →
      isClientError st1 = false → isClientError st2 = false →
      isClientError st3 = false →
      retryRequest outcomes 3 1000 =
        { result := .error st3, attempts := 3, delays := [1000, 2000] }) := by
  constructor
  · intro outcomes st h1 hc
    unfold retryRequest retryGo
    rw [h1]
    dsimp only
    rw [hc]
    rfl
  · intro outcomes st1 st2 st3 h1 h2 h3 hc1 hc2 hc3
    unfold retryRequest retryGo
    rw [h1]
    dsimp only
    rw [hc1]
    show retryGo outcomes 1000 2 1 [1000 * 2 ^ (1 - 1)] = _
    unfold retryGo
    rw [h2]
    dsimp only
    rw [hc2]
    show retryGo outcomes 1000 3 0 [1000 * 2 ^ (2 - 1), 1000 * 2 ^ (1 - 1)] = _
    unfold retryGo
    rw [h3]
    dsimp only
    rw [hc3]
    rfl

/-- Witness for C4: a request that always 404s is attempted once; a
request that always times out is attempted three times with delays
1000 ms and 2000 ms. -/
theorem claim_C4_witness :
    retryRequest (fun _ => ReqOutcome.fail (α := RemotePayload) (some 404)) 3 1000 =
      { result := .error (some 404), attempts := 1, delays := [] } ∧
    retryRequest (fun _ => ReqOutcome.fail (α := RemotePayload) none) 3 1000 =
      { result := .error none, attempts := 3, delays := [1000, 2000] } :=
  ⟨claim_C4_retry_policy.1 _ (some 404) rfl (by decide),
   claim_C4_retry_policy.2 _ none none none rfl rfl rfl rfl rfl rfl⟩

/-- A syntactically well-formed payload with a risk level outside
{LOW, MEDIUM, HIGH}. -/
def malformedPayload : RemotePayload :=
  { risk_level := "EXTREME", confidence := 1/2,
    contributing_factors := [], model_version := some "9.9" }

/-- Counterexample for claim C9: a malformed payload delivered on a
successful response is rejected by `validatePredictionResponse`, but the
call is NOT retried — validation runs after `retryRequest` has returned,
so exactly one attempt is made and the error is raised immediately. -/
theorem claim_C9_counterexample :
    validatePredictionResponse malformedPayload = .error "Invalid risk level" ∧
    getPrediction (fun _ => .ok malformedPayload) =
      (.error "Invalid risk level", 1) := by
  exact ⟨rfl, rfl⟩

/-- Claim C9 as amended: a payload whose risk level is outside
{LOW, MEDIUM, HIGH} or whose confidence is outside [0,1] is rejected as a
malformed-response failure and the error is raised to the caller, but it
does not count as a retryable failure: the retry loop has already returned
the successful response, so exactly 1 attempt is made. -/
theorem claim_C9_amended (payload : RemotePayload)
    (hbad : (payload.risk_level ≠ "LOW" ∧ payload.risk_level ≠ "MEDIUM" ∧
             payload.risk_level ≠ "HIGH") ∨
            payload.confidence < 0 ∨ payload.confidence > 1) :
    ∃ e : String, validatePredictionResponse payload = .error e ∧
      getPrediction (fun _ => .ok payload) = (.error e, 1) := by
  have hval : ∃ e : String, validatePredictionResponse payload = .error e := by
    unfold validatePredictionResponse
    by_cases h1 : payload.risk_level ≠ "LOW" ∧ payload.risk_level ≠ "MEDIUM" ∧
        payload.risk_level ≠ "HIGH"
    · rw [if_pos h1]; exact ⟨_, rfl⟩
    · rw [if_neg h1]
      rcases hbad with hb | hb
      · exact absurd hb h1
      · rw [if_pos hb]; exact ⟨_, rfl⟩
  obtain ⟨e, he⟩ := hval
  refine ⟨e, he, ?_⟩
  show (match (retryRequest (fun _ => .ok payload) 3 1000).result with
        | .error _ => (Except.error "AI prediction failed: request error",
            (retryRequest (fun _ => .ok payload) 3 1000).attempts)
        | .ok p =>
          match validatePredictionResponse p with
          | .error e2 => (.error e2, (retryRequest (fun _ => .ok payload) 3 1000).attempts)
          | .ok p2 => (.ok p2, (retryRequest (fun _ => .ok payload) 3 1000).attempts)) =
      (Except.error e, 1)
  have hrr : retryRequest (fun _ => .ok payload) 3 1000 =
      { result := .ok payload, attempts := 1, delays := [] } := rfl
  rw [hrr]
  simp only [he]

/-- Witness for C9-as-amended at the concrete malformed payload. -/
theorem claim_C9_witness :
    ∃ e : String, validatePredictionResponse malformedPayload = .error e ∧
      getPrediction (fun _ => .ok malformedPayload) = (.error e, 1) :=
  claim_C9_amended malformedPayload (.inl (by decide))

theorem postReading_fallback (input : ReadingInput) (hv : validReadings input.readings)
    (e : String) :
    postReading input true (.error e) =
      .ok { savedReading := { sensorId := input.sensorId, timestamp := input.timestamp,
                              readings := input.readings,
                              riskPrediction := generateFallbackPrediction input.readings },
            emittedRiskUpdate :=
              decide ((generateFallbackPrediction input.readings).level = .HIGH),
            createdAlerts := [] } := by
  unfold postReading
  rw [if_neg (not_not_intro hv), if_neg (by simp)]

/-- The §8 scenario reading wrapped as route input. -/
def scenarioInput : ReadingInput :=
  { sensorId := "SENSOR_001", timestamp := 0, readings := scenarioReading }

/-- Counterexample for claim C2: ingesting the §8 scenario reading via
POST /api/readings while the predictor is down yields the fallback HIGH
classification (score 143), yet the route creates no alert and returns
none to the caller — alert creation is not invoked on the ingestion
path. -/
theorem claim_C2_counterexample :
    fallbackScore scenarioReading = 143 ∧
    (generateFallbackPrediction scenarioReading).level = .HIGH ∧
    (generateFallbackPrediction scenarioReading).confidence = 7/10 ∧
    ∃ eff : PostReadingEffects,
      postReading scenarioInput true (.error "AI Service Error") = .ok eff ∧
      eff.createdAlerts = [] := by
  have hs : fallbackScore scenarioReading = 143 := by
    norm_num [fallbackScore, scenarioReading]
  have hv : validReadings scenarioReading := by
    norm_num [validReadings, scenarioReading]
  refine ⟨hs, ?_, ?_, ?_⟩
  · rw [generateFallbackPrediction_eq, hs, if_pos (by norm_num)]
  · rw [generateFallbackPrediction_eq, hs, if_pos (by norm_num)]
  · exact ⟨_, postReading_fallback scenarioInput hv "AI Service Error", rfl⟩

/-- Claim C2 as amended: the HTTP ingestion route never creates an alert —
on every successful ingestion the set of created alerts is empty (a HIGH
level only triggers a risk-update broadcast) — while the backend simulator
path creates an alert exactly when level == HIGH and confidence > 0.5,
always with priority CRITICAL (which is in {HIGH, CRITICAL}) and status
ACTIVE, and that path performs no fallback: a prediction failure aborts
the reading instead of being absorbed. -/
theorem claim_C2_amended :
    (∀ (input : ReadingInput) (sensorExists : Bool)
        (outcome : Except String Prediction) (eff : PostReadingEffects),
      postReading input sensorExists outcome = .ok eff →
        eff.createdAlerts = [] ∧
        eff.emittedRiskUpdate = decide (eff.savedReading.riskPrediction.level = .HIGH)) ∧
    (∀ (sensor : SensorDoc) (r : Readings) (p : Prediction) (now : ℤ)
        (saved : StoredReading) (al : Alert),
      generateSensorReading sensor r (.ok p) now = .ok (saved, some al) →
        p.level = .HIGH ∧ p.confidence > 1/2 ∧
        al.priority = .CRITICAL ∧ al.status = .ACTIVE) ∧
    (∀ (sensor : SensorDoc) (r : Readings) (p : Prediction) (now : ℤ),
      p.level = .HIGH → p.confidence > 1/2 →
      ∃ (saved : StoredReading) (al : Alert),
        generateSensorReading sensor r (.ok p) now = .ok (saved, some al) ∧
        al.priority = .CRITICAL ∧ al.status = .ACTIVE) ∧
    (∀ (sensor : SensorDoc) (r : Readings) (p : Prediction) (now : ℤ)
        (saved : StoredReading),
      generateSensorReading sensor r (.ok p) now = .ok (saved, none) →
        ¬ (p.level = .HIGH ∧ p.confidence > 1/2)) ∧
    (∀ (sensor : SensorDoc) (r : Readings) (e : String) (now : ℤ),
      generateSensorReading sensor r (.error e) now = .error e) := by
  refine ⟨?_, ?_, ?_, ?_, ?_⟩
  · intro input sensorExists outcome eff h
    unfold postReading at h
    by_cases h1 : ¬ validReadings input.readings
    · rw [if_pos h1] at h; cases h
    · rw [if_neg h1] at h
      by_cases h2 : ¬ sensorExists
      · rw [if_pos h2] at h; cases h
      · rw [if_neg h2] at h
        cases h
        exact ⟨rfl, rfl⟩
  · intro sensor r p now saved al h
    unfold generateSensorReading at h
    dsimp only at h
    by_cases hc : p.level = .HIGH ∧ p.confidence > 1/2
    · rw [if_pos hc] at h
      cases h
      exact ⟨hc.1, hc.2, rfl, rfl⟩
    · rw [if_neg hc] at h
      cases h
  · intro sensor r p now hl hc
    refine ⟨{ sensorId := sensor.sensorId, timestamp := now, readings := r,
              riskPrediction := p },
      simulatorAlert sensor
        { sensorId := sensor.sensorId, timestamp := now, readings := r,
          riskPrediction := p } p now, ?_, rfl, rfl⟩
    unfold generateSensorReading
    dsimp only
    rw [if_pos ⟨hl, hc⟩]
  · intro sensor r p now saved h hcontra
    unfold generateSensorReading at h
    dsimp only at h
    rw [if_pos hcontra] at h
    cases h
  · intro sensor r e now
    rfl

/-- Witness for C2-as-amended: the simulator clause at a concrete HIGH
prediction with confidence 1. -/
theorem claim_C2_witness :
    ∃ (saved : StoredReading) (al : Alert),
      generateSensorReading { sensorId := "S1", alertThreshold := fun _ => 0 }
          slopeOnlyReading
          (.ok { level := .HIGH, confidence := 1, factors := ["Slope_Angle"],
                 aiModelVersion := "1.0", processingTime := 30 }) 0 =
        .ok (saved, some al) ∧
      al.priority = .CRITICAL ∧ al.status = .ACTIVE :=
  claim_C2_amended.2.2.1 _ slopeOnlyReading _ 0 rfl one_half_lt_one

/-- Claim C8: when the reading is valid and the remote predictor fails,
POST /api/readings still succeeds, persisting the reading with the
fallback classification in the same Classification shape, whose model tag
"fallback-2.0" marks it as fallback-derived; the caller never sees the
predictor failure. -/
theorem claim_C8_fallback_substitution (input : ReadingInput) (e : String)
    (hv : validReadings input.readings) :
    postReading input true (.error e) =
      .ok { savedReading := { sensorId := input.sensorId, timestamp := input.timestamp,
                              readings := input.readings,
                              riskPrediction := generateFallbackPrediction input.readings },
            emittedRiskUpdate :=
              decide ((generateFallbackPrediction input.readings).level = .HIGH),
            createdAlerts := [] } ∧
    (generateFallbackPrediction input.readings).aiModelVersion = "fallback-2.0" := by
  refine ⟨postReading_fallback input hv e, ?_⟩
  rw [generateFallbackPrediction_eq]
  rcases le_or_lt 60 (fallbackScore input.readings) with h1 | h1
  · rw [if_pos h1]
  · rw [if_neg (by omega)]
    rcases le_or_lt 30 (fallbackScore input.readings) with h2 | h2
    · rw [if_pos h2]
    · rw [if_neg (by omega)]

/-- Witness for C8 at the §8 scenario input: the fallback result carries
the fallback model tag. -/
theorem claim_C8_witness :
    (generateFallbackPrediction scenarioInput.readings).aiModelVersion =
      "fallback-2.0" :=
  (claim_C8_fallback_substitution scenarioInput "AI service down"
    (by norm_num [validReadings, scenarioInput, scenarioReading])).2


end GeoSafe
